import Mathlib

/-!
Verification of the Hanoi weather collection pipeline
(`weather_module.py` / `hanoi_weather.py`): a shallow embedding of the
retrying HTTP client `fetch_with_retry`, the response extractor
`extract_weather_data`, the validator `process_weather_data` and the
persistence writer `save_to_sqlite`, together with proofs of the
specified properties.

Python floats are modelled as rationals; Python dictionaries as
association lists with string keys; exceptions as `Option`/sum results.
-/

/-- A Python value as it appears in a parsed JSON response: `None`,
booleans, integers, floats (modelled as rationals), strings, lists and
string-keyed dictionaries. -/
inductive PyVal : Type where
  | none : PyVal
  | bool : Bool → PyVal
  | int : Int → PyVal
  | float : ℚ → PyVal
  | str : String → PyVal
  | list : List PyVal → PyVal
  | dict : List (String × PyVal) → PyVal

/-- Python truthiness, `if x:`. -/
def truthy : PyVal → Bool
  | PyVal.none => false
  | PyVal.bool b => b
  | PyVal.int n => decide (n ≠ 0)
  | PyVal.float q => decide (q ≠ 0)
  | PyVal.str s => decide (s ≠ "")
  | PyVal.list [] => false
  | PyVal.list (_ :: _) => true
  | PyVal.dict [] => false
  | PyVal.dict (_ :: _) => true

/-- Whether a value is Python's `None`. -/
def PyVal.isNone : PyVal → Bool
  | PyVal.none => true
  | _ => false

/-- Python `d.get(key, default)` on a string-keyed dictionary. -/
def dictGetD (kvs : List (String × PyVal)) (key : String) (dflt : PyVal) : PyVal :=
  match kvs.lookup key with
  | some v => v
  | Option.none => dflt

/-- Numeric value of a list of decimal digit characters. -/
def digitsVal (l : List Char) : Nat :=
  l.foldl (fun acc c => 10 * acc + (c.toNat - 48)) 0

/-- Model of Python `int(s)` on a string, restricted to optionally signed
decimal integer literals (whitespace, underscores and non-decimal bases are
not modelled): a fractional literal such as "70.5" is rejected with
`ValueError`, exactly as Python's `int` does. -/
def pyIntOfString (s : String) : Option Int :=
  match s.toList with
  | [] => Option.none
  | c :: rest =>
    if c = '-' then
      if rest ≠ [] ∧ rest.all Char.isDigit then some (-(digitsVal rest : Int)) else Option.none
    else if c = '+' then
      if rest ≠ [] ∧ rest.all Char.isDigit then some ((digitsVal rest : Int)) else Option.none
    else
      if (c :: rest).all Char.isDigit then some ((digitsVal (c :: rest) : Int)) else Option.none

/-- Unsigned decimal literal with at most one decimal point. -/
def pyFloatOfChars (l : List Char) : Option ℚ :=
  match l.splitOn '.' with
  | [ip] =>
    if ip ≠ [] ∧ ip.all Char.isDigit then some ((digitsVal ip : ℚ)) else Option.none
  | [ip, fp] =>
    if (ip ≠ [] ∨ fp ≠ []) ∧ ip.all Char.isDigit ∧ fp.all Char.isDigit then
      some ((digitsVal ip : ℚ) + (digitsVal fp : ℚ) / (10 ^ fp.length))
    else Option.none
  | _ => Option.none

/-- Model of Python `float(s)` on a string, restricted to optionally signed
decimal literals (exponents, "inf", "nan" and surrounding whitespace are not
modelled). -/
def pyFloatOfString (s : String) : Option ℚ :=
  match s.toList with
  | [] => Option.none
  | c :: rest =>
    if c = '-' then (pyFloatOfChars rest).map (fun q => -q)
    else if c = '+' then pyFloatOfChars rest
    else pyFloatOfChars (c :: rest)

/-- Python `float(x)`: numbers, booleans and numeric strings coerce; `None`,
lists and dictionaries raise `TypeError`, non-numeric strings raise
`ValueError` (both modelled as `Option.none`). -/
def pyFloat : PyVal → Option ℚ
  | PyVal.bool b => some (if b then 1 else 0)
  | PyVal.int n => some ((n : ℚ))
  | PyVal.float q => some q
  | PyVal.str s => pyFloatOfString s
  | _ => Option.none

/-- Python `int()` applied to a float truncates toward zero. -/
def ratTrunc (q : ℚ) : Int := if 0 ≤ q then ⌊q⌋ else ⌈q⌉

/-- Python `int(x)`: integers and booleans pass through, floats truncate
toward zero, strings must be integer literals; everything else raises
(modelled as `Option.none`). -/
def pyInt : PyVal → Option Int
  | PyVal.bool b => some (if b then 1 else 0)
  | PyVal.int n => some n
  | PyVal.float q => some (ratTrunc q)
  | PyVal.str s => pyIntOfString s
  | _ => Option.none

/-- The six-field dictionary produced by `extract_weather_data`; each field
may be `PyVal.none`. -/
structure ExtractedFields where
  temperature : PyVal
  humidity : PyVal
  pressure : PyVal
  wind_speed : PyVal
  description : PyVal
  city_name : PyVal

/-- A row of the `weather_log` table, as built by `process_weather_data`. -/
structure WeatherRow where
  timestamp_utc : String
  city_name : PyVal
  temperature_celsius : ℚ
  humidity_percent : Int
  pressure_hpa : ℚ
  wind_speed_mps : ℚ
  weather_description : PyVal

/-- `process_weather_data(extracted_data, expected_city)` from
`weather_module.py` (identical in `hanoi_weather.py`): returns `None` when
the input is `None`, when any of the four required fields is `None`, or when
numeric coercion (`float` for temperature/pressure/wind speed, `int` for
humidity) fails; range checks only log warnings and never reject.  The
current UTC timestamp, obtained from the clock in the source, is passed in
as `now`. -/
def process_weather_data (now : String) (extracted_data : Option ExtractedFields)
    (expected_city : String) : Option WeatherRow :=
  match extracted_data with
  | Option.none => Option.none
  | some e =>
    if e.temperature.isNone || e.humidity.isNone || e.pressure.isNone || e.wind_speed.isNone then
      Option.none
    else
      match pyFloat e.temperature, pyInt e.humidity, pyFloat e.pressure, pyFloat e.wind_speed with
      | some temp, some humidity, some pressure, some wind_speed =>
        some { timestamp_utc := now,
               city_name := if truthy e.city_name then e.city_name else PyVal.str expected_city,
               temperature_celsius := temp,
               humidity_percent := humidity,
               pressure_hpa := pressure,
               wind_speed_mps := wind_speed,
               weather_description := e.description }
      | _, _, _, _ => Option.none

/-- Python subscript `v[0]`: defined for nonempty lists and strings (a
string yields its one-character head); everything else raises `IndexError`,
`KeyError` or `TypeError` (modelled as `Option.none`).  Dictionaries raise
`KeyError` here because their keys are strings, never the integer `0`. -/
def subscriptZero : PyVal → Option PyVal
  | PyVal.list (x :: _) => some x
  | PyVal.str s =>
    match s.toList with
    | [] => Option.none
    | c :: _ => some (PyVal.str (String.mk [c]))
  | _ => Option.none

/-- The `weather` list handling inside `extract_weather_data`: if the list
is truthy, take its first element and read `description` when that element
is a dictionary; an unsubscriptable truthy value raises (whole extraction
aborts, modelled as `Option.none`). -/
def weatherDescOf (weather_list : PyVal) : Option PyVal :=
  if truthy weather_list then
    match subscriptZero weather_list with
    | Option.none => Option.none
    | some fw =>
      match fw with
      | PyVal.dict d => some (dictGetD d "description" PyVal.none)
      | _ => some PyVal.none
  else some PyVal.none

/-- `extract_weather_data(data)` from `weather_module.py` (identical in
`hanoi_weather.py`): null-safe lookups of `main`, `wind`, `weather` and
`name`; any exception during extraction (e.g. a non-dictionary where a
`.get` is attempted) is caught and yields `None` for the whole extraction,
modelled as `Option.none`. -/
def extract_weather_data (data : PyVal) : Option ExtractedFields :=
  match data with
  | PyVal.dict kvs =>
    match dictGetD kvs "main" (PyVal.dict []), dictGetD kvs "wind" (PyVal.dict []) with
    | PyVal.dict m, PyVal.dict w =>
      match weatherDescOf (dictGetD kvs "weather" (PyVal.list [])) with
      | some wd =>
        some { temperature := dictGetD m "temp" PyVal.none,
               humidity := dictGetD m "humidity" PyVal.none,
               pressure := dictGetD m "pressure" PyVal.none,
               wind_speed := dictGetD w "speed" PyVal.none,
               description := wd,
               city_name := dictGetD kvs "name" PyVal.none }
      | Option.none => Option.none
    | _, _ => Option.none
  | _ => Option.none

/-- The first element of the extracted `weather` list determines the
description: empty list or non-dictionary first element leave it `None`. -/
def wsDescription : List PyVal → PyVal
  | [] => PyVal.none
  | PyVal.dict d :: _ => dictGetD d "description" PyVal.none
  | _ :: _ => PyVal.none

/-- Behaviour of the SQLite layer on one `INSERT` attempt: normal operation,
or a storage-level fault (`sqlite3.Error` other than `IntegrityError`, e.g.
I/O, permission, disk full) carrying its message. -/
inductive SqliteFault : Type where
  | noFault : SqliteFault
  | ioFault : String → SqliteFault
deriving DecidableEq

/-- Outcome of `save_to_sqlite`: `inserted` models the `True` return,
`alreadyExists` the `False` return after a caught `IntegrityError`, and
`fatalCrash` the re-raised `sqlite3.Error`. -/
inductive SaveResult : Type where
  | inserted : SaveResult
  | alreadyExists : SaveResult
  | fatalCrash : String → SaveResult
deriving DecidableEq

/-- The `weather_log` table contents, in insertion order. -/
abbrev Store : Type := List WeatherRow

/-- Whether the store already holds a row with the given primary key. -/
def hasTimestamp (store : Store) (ts : String) : Bool :=
  store.any (fun r => r.timestamp_utc == ts)

/-- Number of rows in the store carrying the given timestamp. -/
def countTimestamp (store : Store) (ts : String) : Nat :=
  (store.filter (fun r => r.timestamp_utc == ts)).length

/-- `save_to_sqlite(data_dict, db_path)` from `weather_module.py`: the table
is created if absent (idempotent, part of the store model), then one
`INSERT` runs in a single transaction.  `IntegrityError` — a duplicate
`timestamp_utc` primary key, or a `NULL` `city_name` against the `NOT NULL`
column — is caught and reported as the benign `alreadyExists`/`False`
outcome; any other `sqlite3.Error`, modelled by the per-attempt environment
`env`, is logged and re-raised.  Exactly one insert attempt is made, so only
`env 0` is consulted. -/
def save_to_sqlite (row : WeatherRow) (store : Store) (env : Nat → SqliteFault) :
    SaveResult × Store :=
  match env 0 with
  | SqliteFault.ioFault msg => (SaveResult.fatalCrash msg, store)
  | SqliteFault.noFault =>
    if hasTimestamp store row.timestamp_utc || row.city_name.isNone then
      (SaveResult.alreadyExists, store)
    else
      (SaveResult.inserted, store ++ [row])

/-- What the orchestrator observes from the persistence stage in one cycle. -/
inductive CycleStorageOutcome : Type where
  | stored : CycleStorageOutcome
  | duplicate : CycleStorageOutcome
  | storageFailure : String → CycleStorageOutcome
deriving DecidableEq

/-- The persistence step of the orchestrator `get_current_weather`
(`weather_module.py` lines 576-587): calls `save_to_sqlite` once and catches
`sqlite3.Error` at this level, logging it at error level; the cycle then
ends without a stored record. -/
def orchestrator_persist (row : WeatherRow) (store : Store) (env : Nat → SqliteFault) :
    CycleStorageOutcome × Store :=
  match save_to_sqlite row store env with
  | (SaveResult.inserted, s) => (CycleStorageOutcome.stored, s)
  | (SaveResult.alreadyExists, s) => (CycleStorageOutcome.duplicate, s)
  | (SaveResult.fatalCrash msg, s) => (CycleStorageOutcome.storageFailure msg, s)

/-- Outcome of one `requests.get` attempt inside `fetch_with_retry`: a
response with an HTTP status code, a `ConnectionError`, a `Timeout`, or any
other `RequestException`. -/
inductive NetOutcome : Type where
  | response : Nat → NetOutcome
  | connError : NetOutcome
  | timeoutError : NetOutcome
  | otherError : NetOutcome
deriving DecidableEq

/-- The exception with which `fetch_with_retry` fails: a re-raised network
error, an `HTTPError` carrying its status, another `RequestException`, or
the dedicated max-retries `RequestException` built at the end of the loop. -/
inductive FetchErr : Type where
  | connErr : FetchErr
  | timeoutErr : FetchErr
  | httpErr : Nat → FetchErr
  | reqErr : FetchErr
  | retriesExhausted : Nat → FetchErr
deriving DecidableEq

instance : DecidableEq (Except FetchErr Nat) := fun
  | Except.ok a, Except.ok b =>
    match decEq a b with
    | isTrue h => isTrue (by rw [h])
    | isFalse h => isFalse (by intro hh; cases hh; exact h rfl)
  | Except.ok _, Except.error _ => isFalse (by intro h; cases h)
  | Except.error _, Except.ok _ => isFalse (by intro h; cases h)
  | Except.error a, Except.error b =>
    match decEq a b with
    | isTrue h => isTrue (by rw [h])
    | isFalse h => isFalse (by intro hh; cases hh; exact h rfl)

/-- Observable behaviour of one `fetch_with_retry` call: the returned status
or raised exception, the sequence of `time.sleep` delays in order, and the
number of `requests.get` attempts performed. -/
structure FetchTrace where
  result : Except FetchErr Nat
  sleeps : List ℚ
  attempts : Nat
deriving DecidableEq

/-- The exception the per-attempt outcome raises when it is a failure. -/
def underlyingErr : NetOutcome → FetchErr
  | NetOutcome.response s => FetchErr.httpErr s
  | NetOutcome.connError => FetchErr.connErr
  | NetOutcome.timeoutError => FetchErr.timeoutErr
  | NetOutcome.otherError => FetchErr.reqErr

/-- Outcomes that `fetch_with_retry` retries: connection errors, timeouts
and HTTP errors with a 5xx status (`raise_for_status` raises exactly for
statuses in [400, 600)). -/
def retryableOutcome : NetOutcome → Bool
  | NetOutcome.connError => true
  | NetOutcome.timeoutError => true
  | NetOutcome.response s => decide (500 ≤ s ∧ s < 600)
  | NetOutcome.otherError => false

/-- The `while retries < max_retries` loop of `fetch_with_retry`.  `env`
gives the outcome of each attempt (attempt number = current value of
`retries`, which counts failed attempts); `gas = max_retries - retries`
bounds the remaining iterations, so the loop guard `retries < max_retries`
is `0 < gas` and the post-failure guard `retries + 1 < max_retries` is
`0 < gas - 1`.  On a retryable failure with attempts remaining the loop
sleeps `delay` and doubles it; otherwise the underlying error is re-raised.
Falling out of the loop raises the dedicated max-retries exception. -/
def fetchGo (env : Nat → NetOutcome) (max_retries : Nat) :
    Nat → Nat → ℚ → List ℚ → Nat → FetchTrace
  | 0, _, _, sleeps, attempts =>
    { result := Except.error (FetchErr.retriesExhausted max_retries),
      sleeps := sleeps, attempts := attempts }
  | gas + 1, retries, delay, sleeps, attempts =>
    match env retries with
    | NetOutcome.response status =>
      if 400 ≤ status ∧ status < 600 then
        if 500 ≤ status then
          if 0 < gas then
            fetchGo env max_retries gas (retries + 1) (2 * delay) (sleeps ++ [delay]) (attempts + 1)
          else
            { result := Except.error (FetchErr.httpErr status),
              sleeps := sleeps, attempts := attempts + 1 }
        else
          { result := Except.error (FetchErr.httpErr status),
            sleeps := sleeps, attempts := attempts + 1 }
      else
        { result := Except.ok status, sleeps := sleeps, attempts := attempts + 1 }
    | NetOutcome.connError =>
      if 0 < gas then
        fetchGo env max_retries gas (retries + 1) (2 * delay) (sleeps ++ [delay]) (attempts + 1)
      else
        { result := Except.error FetchErr.connErr, sleeps := sleeps, attempts := attempts + 1 }
    | NetOutcome.timeoutError =>
      if 0 < gas then
        fetchGo env max_retries gas (retries + 1) (2 * delay) (sleeps ++ [delay]) (attempts + 1)
      else
        { result := Except.error FetchErr.timeoutErr, sleeps := sleeps, attempts := attempts + 1 }
    | NetOutcome.otherError =>
      { result := Except.error FetchErr.reqErr, sleeps := sleeps, attempts := attempts + 1 }

/-- `fetch_with_retry(url, params, timeout, max_retries, initial_delay)`
from `weather_module.py` (identical in `hanoi_weather.py`), abstracted over
the network: `env i` is what the `i`-th `requests.get` attempt does. -/
def fetch_with_retry (env : Nat → NetOutcome) (max_retries : Nat) (initial_delay : ℚ) :
    FetchTrace :=
  fetchGo env max_retries max_retries 0 initial_delay [] 0

/-- The exponential backoff schedule: `k` sleeps of
`d, 2*d, 4*d, ..., 2^(k-1)*d`. -/
def backoffSleeps (d : ℚ) (k : Nat) : List ℚ :=
  (List.range k).map (fun i => 2 ^ i * d)

lemma backoffSleeps_succ (d : ℚ) (k : Nat) :
    backoffSleeps d (k + 1) = d :: backoffSleeps (2 * d) k := by
  unfold backoffSleeps
  rw [List.range_succ_eq_map, List.map_cons, List.map_map]
  have hf : ((fun i => 2 ^ i * d) ∘ Nat.succ) = (fun i : Nat => 2 ^ i * (2 * d)) := by
    funext i
    simp only [Function.comp_apply, pow_succ]
    ring
  rw [hf]
  simp

lemma fetchGo_retryable_step (env : Nat → NetOutcome) (max_retries gas retries : Nat)
    (d : ℚ) (sleeps : List ℚ) (attempts : Nat)
    (h : retryableOutcome (env retries) = true) (hg : 0 < gas) :
    fetchGo env max_retries (gas + 1) retries d sleeps attempts =
      fetchGo env max_retries gas (retries + 1) (2 * d) (sleeps ++ [d]) (attempts + 1) := by
  cases henv : env retries with
  | response s =>
    rw [henv] at h
    have h5 : 500 ≤ s ∧ s < 600 := by simpa [retryableOutcome] using h
    have h4 : 400 ≤ s := by omega
    simp [fetchGo, henv, h4, h5.1, h5.2, hg]
  | connError => simp [fetchGo, henv, hg]
  | timeoutError => simp [fetchGo, henv, hg]
  | otherError => rw [henv] at h; simp [retryableOutcome] at h

lemma fetchGo_retryable_steps (env : Nat → NetOutcome) (max_retries : Nat) (k : Nat) :
    ∀ (gas retries : Nat) (d : ℚ) (sleeps : List ℚ) (attempts : Nat),
      (∀ i, i < k → retryableOutcome (env (retries + i)) = true) → k < gas →
      fetchGo env max_retries gas retries d sleeps attempts =
        fetchGo env max_retries (gas - k) (retries + k) (2 ^ k * d)
          (sleeps ++ backoffSleeps d k) (attempts + k) := by
  induction k with
  | zero =>
    intro gas retries d sleeps attempts _ _
    simp [backoffSleeps]
  | succ k ih =>
    intro gas retries d sleeps attempts hr hg
    obtain ⟨g, rfl⟩ : ∃ g, gas = g + 1 := ⟨gas - 1, by omega⟩
    have h0 : retryableOutcome (env retries) = true := by
      have := hr 0 (Nat.succ_pos k); simpa using this
    rw [fetchGo_retryable_step env max_retries g retries d sleeps attempts h0 (by omega)]
    rw [ih g (retries + 1) (2 * d) (sleeps ++ [d]) (attempts + 1)
      (fun i hi => by
        have := hr (i + 1) (by omega)
        have e : retries + (i + 1) = retries + 1 + i := by omega
        rw [e] at this
        exact this)
      (by omega)]
    have e1 : g - k = g + 1 - (k + 1) := by omega
    have e2 : retries + 1 + k = retries + (k + 1) := by omega
    have e3 : 2 ^ k * (2 * d) = 2 ^ (k + 1) * d := by ring
    have e4 : (sleeps ++ [d]) ++ backoffSleeps (2 * d) k = sleeps ++ backoffSleeps d (k + 1) := by
      rw [List.append_assoc, backoffSleeps_succ]
      rfl
    have e5 : attempts + 1 + k = attempts + (k + 1) := by omega
    rw [e1, e2, e3, e4, e5]

lemma fetchGo_success (env : Nat → NetOutcome) (max_retries gas retries : Nat)
    (d : ℚ) (sleeps : List ℚ) (attempts : Nat) (s : Nat)
    (henv : env retries = NetOutcome.response s) (hs : ¬(400 ≤ s ∧ s < 600)) (hg : 0 < gas) :
    fetchGo env max_retries gas retries d sleeps attempts =
      { result := Except.ok s, sleeps := sleeps, attempts := attempts + 1 } := by
  obtain ⟨g, rfl⟩ : ∃ g, gas = g + 1 := ⟨gas - 1, by omega⟩
  simp [fetchGo, henv, hs]

lemma fetchGo_client_error (env : Nat → NetOutcome) (max_retries gas retries : Nat)
    (d : ℚ) (sleeps : List ℚ) (attempts : Nat) (s : Nat)
    (henv : env retries = NetOutcome.response s) (h4 : 400 ≤ s) (h5 : s < 500) (hg : 0 < gas) :
    fetchGo env max_retries gas retries d sleeps attempts =
      { result := Except.error (FetchErr.httpErr s), sleeps := sleeps,
        attempts := attempts + 1 } := by
  obtain ⟨g, rfl⟩ : ∃ g, gas = g + 1 := ⟨gas - 1, by omega⟩
  have hn : ¬ 500 ≤ s := by omega
  have h6 : s < 600 := by omega
  simp [fetchGo, henv, h4, h6, hn]

lemma fetchGo_exhaust (env : Nat → NetOutcome) (max_retries retries : Nat)
    (d : ℚ) (sleeps : List ℚ) (attempts : Nat)
    (h : retryableOutcome (env retries) = true) :
    fetchGo env max_retries 1 retries d sleeps attempts =
      { result := Except.error (underlyingErr (env retries)), sleeps := sleeps,
        attempts := attempts + 1 } := by
  cases henv : env retries with
  | response s =>
    rw [henv] at h
    have h5 : 500 ≤ s ∧ s < 600 := by simpa [retryableOutcome] using h
    have h4 : 400 ≤ s := by omega
    simp [fetchGo, henv, h4, h5.1, h5.2, underlyingErr]
  | connError => simp [fetchGo, henv, underlyingErr]
  | timeoutError => simp [fetchGo, henv, underlyingErr]
  | otherError => rw [henv] at h; simp [retryableOutcome] at h

/-- Claim C1: for every call of `fetch_with_retry` where the first `k`
attempts fail with connection errors or timeouts and attempt `k+1` succeeds
(within the attempt budget `max_retries`), the call returns the successful
response having slept exactly `k` times with delays
`d, 2*d, ..., 2^(k-1)*d`; and under persistent connection failure it makes
`max_retries` attempts and then fails. -/
theorem fetch_retry_backoff_policy :
    (∀ (env : Nat → NetOutcome) (k max_retries : Nat) (d : ℚ) (s : Nat),
      (∀ i, i < k → env i = NetOutcome.connError ∨ env i = NetOutcome.timeoutError) →
      env k = NetOutcome.response s → ¬(400 ≤ s ∧ s < 600) → k < max_retries →
      fetch_with_retry env max_retries d =
        { result := Except.ok s, sleeps := backoffSleeps d k, attempts := k + 1 }) ∧
    (∀ (env : Nat → NetOutcome) (max_retries : Nat) (d : ℚ),
      1 ≤ max_retries →
      (∀ i, env i = NetOutcome.connError ∨ env i = NetOutcome.timeoutError) →
      ∃ e, fetch_with_retry env max_retries d =
          { result := Except.error e, sleeps := backoffSleeps d (max_retries - 1),
            attempts := max_retries } ∧
        (e = FetchErr.connErr ∨ e = FetchErr.timeoutErr)) := by
  constructor
  · intro env k max_retries d s hfail hsucc hs hk
    have h1 := fetchGo_retryable_steps env max_retries k max_retries 0 d [] 0
      (fun i hi => by
        have e : 0 + i = i := by omega
        rw [e]
        rcases hfail i hi with h | h <;> simp [retryableOutcome, h])
      hk
    unfold fetch_with_retry
    rw [h1]
    simp only [Nat.zero_add, List.nil_append]
    rw [fetchGo_success env max_retries (max_retries - k) k (2 ^ k * d)
      (backoffSleeps d k) k s hsucc hs (by omega)]
  · intro env max_retries d hmax hfail
    refine ⟨underlyingErr (env (max_retries - 1)), ?_, ?_⟩
    · have h1 := fetchGo_retryable_steps env max_retries (max_retries - 1) max_retries 0 d [] 0
        (fun i hi => by
          have e : 0 + i = i := by omega
          rw [e]
          rcases hfail i with h | h <;> simp [retryableOutcome, h])
        (by omega)
      have hgas : max_retries - (max_retries - 1) = 1 := by omega
      unfold fetch_with_retry
      rw [h1, hgas]
      simp only [Nat.zero_add, List.nil_append]
      rw [fetchGo_exhaust env max_retries (max_retries - 1) (2 ^ (max_retries - 1) * d)
        (backoffSleeps d (max_retries - 1)) (max_retries - 1)
        (by rcases hfail (max_retries - 1) with h | h <;> simp [retryableOutcome, h])]
      have e : max_retries - 1 + 1 = max_retries := by omega
      rw [e]
    · rcases hfail (max_retries - 1) with h | h <;> simp [underlyingErr, h]

/-- Witness for C1: two connection errors followed by a 200 response, with
`max_retries = 3` and `initial_delay = 1`, return the response after sleeps
of exactly `1` and `2` seconds and three attempts. -/
theorem fetch_retry_backoff_policy_witness :
    fetch_with_retry (fun i => if i < 2 then NetOutcome.connError else NetOutcome.response 200)
        3 1 =
      { result := Except.ok 200, sleeps := [1, 2], attempts := 3 } := by
  have h := fetch_retry_backoff_policy.1
    (fun i => if i < 2 then NetOutcome.connError else NetOutcome.response 200) 2 3 1 200
    (fun i hi => Or.inl (by simp [hi]))
    (by norm_num)
    (by norm_num)
    (by norm_num)
  rw [h]
  norm_num [backoffSleeps, List.range_succ]

/-- Claim C2: a 4xx response (401, 404, 429, ...) makes `fetch_with_retry`
raise immediately after a single attempt with zero sleeps, while 5xx
responses get the same retry/backoff treatment as connection failures. -/
theorem fetch_client_error_no_retry :
    (∀ (env : Nat → NetOutcome) (max_retries : Nat) (d : ℚ) (s : Nat),
      1 ≤ max_retries → env 0 = NetOutcome.response s → 400 ≤ s → s < 500 →
      fetch_with_retry env max_retries d =
        { result := Except.error (FetchErr.httpErr s), sleeps := [], attempts := 1 }) ∧
    (∀ (env : Nat → NetOutcome) (k max_retries : Nat) (d : ℚ) (s : Nat),
      (∀ i, i < k → ∃ c, env i = NetOutcome.response c ∧ 500 ≤ c ∧ c < 600) →
      env k = NetOutcome.response s → ¬(400 ≤ s ∧ s < 600) → k < max_retries →
      fetch_with_retry env max_retries d =
        { result := Except.ok s, sleeps := backoffSleeps d k, attempts := k + 1 }) := by
  constructor
  · intro env max_retries d s hmax henv h4 h5
    unfold fetch_with_retry
    rw [fetchGo_client_error env max_retries max_retries 0 d [] 0 s henv h4 h5 (by omega)]
  · intro env k max_retries d s hfail hsucc hs hk
    have h1 := fetchGo_retryable_steps env max_retries k max_retries 0 d [] 0
      (fun i hi => by
        have e : 0 + i = i := by omega
        rw [e]
        obtain ⟨c, hc, hc5, hc6⟩ := hfail i hi
        simp [retryableOutcome, hc, hc5, hc6])
      hk
    unfold fetch_with_retry
    rw [h1]
    simp only [Nat.zero_add, List.nil_append]
    rw [fetchGo_success env max_retries (max_retries - k) k (2 ^ k * d)
      (backoffSleeps d k) k s hsucc hs (by omega)]

/-- Witness for C2: a 404 response fails immediately with zero sleeps and a
single attempt. -/
theorem fetch_client_error_no_retry_witness :
    fetch_with_retry (fun _ => NetOutcome.response 404) 3 1 =
      { result := Except.error (FetchErr.httpErr 404), sleeps := [], attempts := 1 } :=
  fetch_client_error_no_retry.1 (fun _ => NetOutcome.response 404) 3 1 404
    (by norm_num) rfl (by norm_num) (by norm_num)

/-- Counterexample to C3 as stated: with three attempts all failing with
connection errors, `fetch_with_retry` raises the underlying connection
error itself (`FetchErr.connErr`), which is not the dedicated
retries-exhausted failure. -/
theorem fetch_exhaustion_counterexample :
    fetch_with_retry (fun _ => NetOutcome.connError) 3 1 =
      { result := Except.error FetchErr.connErr, sleeps := [1, 2], attempts := 3 } ∧
    FetchErr.connErr ≠ FetchErr.retriesExhausted 3 := by
  constructor
  · norm_num [fetch_with_retry, fetchGo]
  · intro h
    cases h

/-- Claim C3 (amended): when `max_retries ≥ 1` and every attempt fails with
a retryable error, `fetch_with_retry` re-raises the underlying error of the
final attempt — never the dedicated retries-exhausted failure; that
dedicated failure is raised only when `max_retries = 0`, in which case no
attempt is made. -/
theorem fetch_exhaustion_raises_last_error :
    (∀ (env : Nat → NetOutcome) (max_retries : Nat) (d : ℚ),
      1 ≤ max_retries → (∀ i, retryableOutcome (env i) = true) →
      fetch_with_retry env max_retries d =
        { result := Except.error (underlyingErr (env (max_retries - 1))),
          sleeps := backoffSleeps d (max_retries - 1), attempts := max_retries } ∧
      (∀ m, underlyingErr (env (max_retries - 1)) ≠ FetchErr.retriesExhausted m)) ∧
    (∀ (env : Nat → NetOutcome) (d : ℚ),
      fetch_with_retry env 0 d =
        { result := Except.error (FetchErr.retriesExhausted 0), sleeps := [],
          attempts := 0 }) := by
  constructor
  · intro env max_retries d hmax hfail
    constructor
    · have h1 := fetchGo_retryable_steps env max_retries (max_retries - 1) max_retries 0 d [] 0
        (fun i _ => by
          have e : 0 + i = i := by omega
          rw [e]
          exact hfail i)
        (by omega)
      have hgas : max_retries - (max_retries - 1) = 1 := by omega
      unfold fetch_with_retry
      rw [h1, hgas]
      simp only [Nat.zero_add, List.nil_append]
      rw [fetchGo_exhaust env max_retries (max_retries - 1) (2 ^ (max_retries - 1) * d)
        (backoffSleeps d (max_retries - 1)) (max_retries - 1) (hfail (max_retries - 1))]
      have e : max_retries - 1 + 1 = max_retries := by omega
      rw [e]
    · intro m
      cases henv : env (max_retries - 1) <;> simp [underlyingErr]
  · intro env d
    rfl

/-- Witness for the amended C3: two persistent 503 responses with
`max_retries = 2` end with the underlying `HTTPError` for status 503. -/
theorem fetch_exhaustion_raises_last_error_witness :
    fetch_with_retry (fun _ => NetOutcome.response 503) 2 1 =
      { result := Except.error (FetchErr.httpErr 503), sleeps := [1], attempts := 2 } := by
  have h := fetch_exhaustion_raises_last_error.1 (fun _ => NetOutcome.response 503) 2 1
    (by norm_num) (fun i => by norm_num [retryableOutcome])
  rw [h.1]
  norm_num [backoffSleeps, underlyingErr, List.range_succ]

lemma pyFloat_of_isNone {v : PyVal} (h : v.isNone = true) : pyFloat v = Option.none := by
  cases v
  case none => rfl
  all_goals simp [PyVal.isNone] at h

lemma pyInt_of_isNone {v : PyVal} (h : v.isNone = true) : pyInt v = Option.none := by
  cases v
  case none => rfl
  all_goals simp [PyVal.isNone] at h

lemma isNone_false_of_pyFloat_some {v : PyVal} {q : ℚ} (h : pyFloat v = some q) :
    v.isNone = false := by
  cases v
  case none => simp [pyFloat] at h
  all_goals rfl

lemma isNone_false_of_pyInt_some {v : PyVal} {n : Int} (h : pyInt v = some n) :
    v.isNone = false := by
  cases v
  case none => simp [pyInt] at h
  all_goals rfl

lemma process_success (now : String) (e : ExtractedFields) (city : String)
    (t p w : ℚ) (hv : Int)
    (ht : pyFloat e.temperature = some t) (hh : pyInt e.humidity = some hv)
    (hp : pyFloat e.pressure = some p) (hw : pyFloat e.wind_speed = some w) :
    process_weather_data now (some e) city = some
      { timestamp_utc := now,
        city_name := if truthy e.city_name then e.city_name else PyVal.str city,
        temperature_celsius := t, humidity_percent := hv,
        pressure_hpa := p, wind_speed_mps := w,
        weather_description := e.description } := by
  have h1 := isNone_false_of_pyFloat_some ht
  have h2 := isNone_false_of_pyInt_some hh
  have h3 := isNone_false_of_pyFloat_some hp
  have h4 := isNone_false_of_pyFloat_some hw
  simp [process_weather_data, h1, h2, h3, h4, ht, hh, hp, hw]

lemma process_eq_none_iff (now : String) (e : ExtractedFields) (city : String) :
    process_weather_data now (some e) city = Option.none ↔
      (pyFloat e.temperature = Option.none ∨ pyInt e.humidity = Option.none ∨
       pyFloat e.pressure = Option.none ∨ pyFloat e.wind_speed = Option.none) := by
  constructor
  · intro hnone
    by_cases hb : (e.temperature.isNone || e.humidity.isNone ||
        e.pressure.isNone || e.wind_speed.isNone) = true
    · have hd := hb
      simp only [Bool.or_eq_true] at hd
      rcases hd with ((h | h) | h) | h
      · exact Or.inl (pyFloat_of_isNone h)
      · exact Or.inr (Or.inl (pyInt_of_isNone h))
      · exact Or.inr (Or.inr (Or.inl (pyFloat_of_isNone h)))
      · exact Or.inr (Or.inr (Or.inr (pyFloat_of_isNone h)))
    · cases hct : pyFloat e.temperature with
      | none => exact Or.inl rfl
      | some t =>
        cases hch : pyInt e.humidity with
        | none => exact Or.inr (Or.inl rfl)
        | some hv =>
          cases hcp : pyFloat e.pressure with
          | none => exact Or.inr (Or.inr (Or.inl rfl))
          | some p =>
            cases hcw : pyFloat e.wind_speed with
            | none => exact Or.inr (Or.inr (Or.inr rfl))
            | some w =>
              rw [process_success now e city t p w hv hct hch hcp hcw] at hnone
              cases hnone
  · intro hdisj
    by_cases hb : (e.temperature.isNone || e.humidity.isNone ||
        e.pressure.isNone || e.wind_speed.isNone) = true
    · simp [process_weather_data, hb]
    · have hb' : (e.temperature.isNone || e.humidity.isNone ||
          e.pressure.isNone || e.wind_speed.isNone) = false := by
        simpa using hb
      rcases hdisj with h | h | h | h <;>
        simp [process_weather_data, hb', h]

/-- Claim C4: `process_weather_data` returns `None` exactly when its input
is `None`, any of the four required fields is `None`, or numeric coercion of
one of those fields fails; for every other input it returns a fully
populated record built from the coerced values. -/
theorem validate_absent_characterization :
    (∀ (now : String) (ext : Option ExtractedFields) (city : String),
      process_weather_data now ext city = Option.none ↔
        ext = Option.none ∨
          ∃ e, ext = some e ∧
            (e.temperature.isNone = true ∨ e.humidity.isNone = true ∨
             e.pressure.isNone = true ∨ e.wind_speed.isNone = true ∨
             pyFloat e.temperature = Option.none ∨ pyInt e.humidity = Option.none ∨
             pyFloat e.pressure = Option.none ∨ pyFloat e.wind_speed = Option.none)) ∧
    (∀ (now : String) (e : ExtractedFields) (city : String) (t p w : ℚ) (hv : Int),
      pyFloat e.temperature = some t → pyInt e.humidity = some hv →
      pyFloat e.pressure = some p → pyFloat e.wind_speed = some w →
      process_weather_data now (some e) city = some
        { timestamp_utc := now,
          city_name := if truthy e.city_name then e.city_name else PyVal.str city,
          temperature_celsius := t, humidity_percent := hv,
          pressure_hpa := p, wind_speed_mps := w,
          weather_description := e.description }) := by
  constructor
  · intro now ext city
    cases ext with
    | none => simp [process_weather_data]
    | some e =>
      rw [process_eq_none_iff]
      constructor
      · intro h
        refine Or.inr ⟨e, rfl, ?_⟩
        rcases h with h | h | h | h
        · exact Or.inr (Or.inr (Or.inr (Or.inr (Or.inl h))))
        · exact Or.inr (Or.inr (Or.inr (Or.inr (Or.inr (Or.inl h)))))
        · exact Or.inr (Or.inr (Or.inr (Or.inr (Or.inr (Or.inr (Or.inl h))))))
        · exact Or.inr (Or.inr (Or.inr (Or.inr (Or.inr (Or.inr (Or.inr h))))))
      · intro h
        rcases h with h | ⟨e', he', hd⟩
        · cases h
        · have he : e' = e := by
            injection he' with he''
            exact he''.symm
          subst he
          rcases hd with h | h | h | h | h | h | h | h
          · exact Or.inl (pyFloat_of_isNone h)
          · exact Or.inr (Or.inl (pyInt_of_isNone h))
          · exact Or.inr (Or.inr (Or.inl (pyFloat_of_isNone h)))
          · exact Or.inr (Or.inr (Or.inr (pyFloat_of_isNone h)))
          · exact Or.inl h
          · exact Or.inr (Or.inl h)
          · exact Or.inr (Or.inr (Or.inl h))
          · exact Or.inr (Or.inr (Or.inr h))
  · intro now e city t p w hv ht hh hp hw
    exact process_success now e city t p w hv ht hh hp hw

/-- Witness for C4: the nominal Hanoi payload is validated into a fully
populated record. -/
theorem validate_absent_characterization_witness :
    process_weather_data "2025-01-01T00:00:00+00:00"
        (some { temperature := PyVal.float 28, humidity := PyVal.int 70,
                pressure := PyVal.float 1008, wind_speed := PyVal.float 3,
                description := PyVal.str "clear sky", city_name := PyVal.str "Hanoi" })
        "Hanoi" =
      some { timestamp_utc := "2025-01-01T00:00:00+00:00", city_name := PyVal.str "Hanoi",
             temperature_celsius := 28, humidity_percent := 70, pressure_hpa := 1008,
             wind_speed_mps := 3, weather_description := PyVal.str "clear sky" } := by
  have h := validate_absent_characterization.2 "2025-01-01T00:00:00+00:00"
    { temperature := PyVal.float 28, humidity := PyVal.int 70,
      pressure := PyVal.float 1008, wind_speed := PyVal.float 3,
      description := PyVal.str "clear sky", city_name := PyVal.str "Hanoi" }
    "Hanoi" 28 1008 3 70 rfl rfl rfl rfl
  rw [h]
  simp

/-- Claim C5: when the four required fields are present and coercible but
out of the plausible ranges, `process_weather_data` still returns a
populated record holding exactly those out-of-range values. -/
theorem validate_range_nonfatal :
    ∀ (now : String) (e : ExtractedFields) (city : String) (t p w : ℚ) (hv : Int),
      pyFloat e.temperature = some t → pyInt e.humidity = some hv →
      pyFloat e.pressure = some p → pyFloat e.wind_speed = some w →
      (t < -100 ∨ 100 < t) → (hv < 0 ∨ 100 < hv) →
      (p < 800 ∨ 1200 < p) → (w < 0 ∨ 200 < w) →
      ∃ row, process_weather_data now (some e) city = some row ∧
        row.temperature_celsius = t ∧ row.humidity_percent = hv ∧
        row.pressure_hpa = p ∧ row.wind_speed_mps = w := by
  intro now e city t p w hv ht hh hp hw _ _ _ _
  exact ⟨_, process_success now e city t p w hv ht hh hp hw, rfl, rfl, rfl, rfl⟩

/-- Witness for C5: temperature 150 °C, humidity 150 %, pressure 1500 hPa
and wind speed 300 m/s are all persisted unchanged. -/
theorem validate_range_nonfatal_witness :
    ∃ row, process_weather_data "2025-01-01T00:00:00+00:00"
        (some { temperature := PyVal.float 150, humidity := PyVal.int 150,
                pressure := PyVal.float 1500, wind_speed := PyVal.float 300,
                description := PyVal.none, city_name := PyVal.str "Hanoi" })
        "Hanoi" = some row ∧
      row.temperature_celsius = 150 ∧ row.humidity_percent = 150 ∧
      row.pressure_hpa = 1500 ∧ row.wind_speed_mps = 300 :=
  validate_range_nonfatal "2025-01-01T00:00:00+00:00"
    { temperature := PyVal.float 150, humidity := PyVal.int 150,
      pressure := PyVal.float 1500, wind_speed := PyVal.float 300,
      description := PyVal.none, city_name := PyVal.str "Hanoi" }
    "Hanoi" 150 1500 300 150 rfl rfl rfl rfl
    (by norm_num) (by norm_num) (by norm_num) (by norm_num)

lemma weatherDescOf_list (ws : List PyVal) :
    weatherDescOf (PyVal.list ws) = some (wsDescription ws) := by
  cases ws with
  | nil => rfl
  | cons x t => cases x <;> rfl

/-- Claim C6: `extract_weather_data` never raises on partial input: for any
input dictionary whose `main` and `wind` entries (when present) are
dictionaries and whose `weather` entry (when present) is a list,
extraction succeeds, with `PyVal.none` standing in for every missing group,
missing key or empty-list datum.  A missing `main`, `wind`, `weather` or
`name` key just produces null fields (the lookups below default to the
empty dictionary / empty list), never an aborted extraction; only genuinely
unexpected shapes fall outside these hypotheses and give `Option.none`. -/
theorem extract_nullsafe :
    ∀ (kvs m w : List (String × PyVal)) (ws : List PyVal),
      dictGetD kvs "main" (PyVal.dict []) = PyVal.dict m →
      dictGetD kvs "wind" (PyVal.dict []) = PyVal.dict w →
      dictGetD kvs "weather" (PyVal.list []) = PyVal.list ws →
      extract_weather_data (PyVal.dict kvs) = some
        { temperature := dictGetD m "temp" PyVal.none,
          humidity := dictGetD m "humidity" PyVal.none,
          pressure := dictGetD m "pressure" PyVal.none,
          wind_speed := dictGetD w "speed" PyVal.none,
          description := wsDescription ws,
          city_name := dictGetD kvs "name" PyVal.none } := by
  intro kvs m w ws hm hw hws
  simp only [extract_weather_data, hm, hw, hws, weatherDescOf_list]

/-- Witness for C6: the empty dictionary — every group missing — extracts
to a record of nulls rather than aborting. -/
theorem extract_nullsafe_witness :
    extract_weather_data (PyVal.dict []) = some
      { temperature := PyVal.none, humidity := PyVal.none, pressure := PyVal.none,
        wind_speed := PyVal.none, description := PyVal.none, city_name := PyVal.none } :=
  extract_nullsafe [] [] [] [] rfl rfl rfl

lemma not_mem_of_hasTimestamp_false {store : Store} {ts : String}
    (h : hasTimestamp store ts = false) :
    ∀ a ∈ store, (a.timestamp_utc == ts) = false := by
  intro a ha
  by_contra hne
  have htrue : hasTimestamp store ts = true := by
    simp only [hasTimestamp, List.any_eq_true]
    exact ⟨a, ha, by simpa using hne⟩
  rw [h] at htrue
  cases htrue

/-- Claim C7: persistence is idempotent on the timestamp primary key —
saving a record into a store that does not yet hold its timestamp yields
`inserted`, saving it again yields the benign `alreadyExists` with the
store unchanged, and the store then holds exactly one row for that
timestamp. -/
theorem persist_idempotent :
    ∀ (row : WeatherRow) (store : Store),
      hasTimestamp store row.timestamp_utc = false →
      row.city_name.isNone = false →
      (save_to_sqlite row store (fun _ => SqliteFault.noFault)).1 = SaveResult.inserted ∧
      (save_to_sqlite row ((save_to_sqlite row store (fun _ => SqliteFault.noFault)).2)
          (fun _ => SqliteFault.noFault)).1 = SaveResult.alreadyExists ∧
      (save_to_sqlite row ((save_to_sqlite row store (fun _ => SqliteFault.noFault)).2)
          (fun _ => SqliteFault.noFault)).2 =
        (save_to_sqlite row store (fun _ => SqliteFault.noFault)).2 ∧
      countTimestamp ((save_to_sqlite row store (fun _ => SqliteFault.noFault)).2)
          row.timestamp_utc = 1 := by
  intro row store h1 h2
  have hsave1 : save_to_sqlite row store (fun _ => SqliteFault.noFault) =
      (SaveResult.inserted, store ++ [row]) := by
    simp [save_to_sqlite, h1, h2]
  have hdup : hasTimestamp (store ++ [row]) row.timestamp_utc = true := by
    simp [hasTimestamp]
  have hsave2 : save_to_sqlite row (store ++ [row]) (fun _ => SqliteFault.noFault) =
      (SaveResult.alreadyExists, store ++ [row]) := by
    simp [save_to_sqlite, hdup]
  rw [hsave1]
  refine ⟨rfl, ?_, ?_, ?_⟩
  · rw [hsave2]
  · rw [hsave2]
  · unfold countTimestamp
    rw [List.filter_append]
    have hc0 : store.filter (fun r => r.timestamp_utc == row.timestamp_utc) = [] := by
      rw [List.filter_eq_nil_iff]
      intro a ha
      have := not_mem_of_hasTimestamp_false h1 a ha
      simp [this]
    rw [hc0]
    simp

/-- Witness for C7: a concrete record saved twice into the empty store. -/
theorem persist_idempotent_witness :
    (save_to_sqlite
        { timestamp_utc := "2025-01-01T00:00:00+00:00", city_name := PyVal.str "Hanoi",
          temperature_celsius := 28, humidity_percent := 70, pressure_hpa := 1008,
          wind_speed_mps := 3, weather_description := PyVal.str "clear sky" }
        [] (fun _ => SqliteFault.noFault)).1 = SaveResult.inserted ∧
    (save_to_sqlite
        { timestamp_utc := "2025-01-01T00:00:00+00:00", city_name := PyVal.str "Hanoi",
          temperature_celsius := 28, humidity_percent := 70, pressure_hpa := 1008,
          wind_speed_mps := 3, weather_description := PyVal.str "clear sky" }
        ((save_to_sqlite
            { timestamp_utc := "2025-01-01T00:00:00+00:00", city_name := PyVal.str "Hanoi",
              temperature_celsius := 28, humidity_percent := 70, pressure_hpa := 1008,
              wind_speed_mps := 3, weather_description := PyVal.str "clear sky" }
            [] (fun _ => SqliteFault.noFault)).2)
        (fun _ => SqliteFault.noFault)).1 = SaveResult.alreadyExists ∧
    (save_to_sqlite
        { timestamp_utc := "2025-01-01T00:00:00+00:00", city_name := PyVal.str "Hanoi",
          temperature_celsius := 28, humidity_percent := 70, pressure_hpa := 1008,
          wind_speed_mps := 3, weather_description := PyVal.str "clear sky" }
        ((save_to_sqlite
            { timestamp_utc := "2025-01-01T00:00:00+00:00", city_name := PyVal.str "Hanoi",
              temperature_celsius := 28, humidity_percent := 70, pressure_hpa := 1008,
              wind_speed_mps := 3, weather_description := PyVal.str "clear sky" }
            [] (fun _ => SqliteFault.noFault)).2)
        (fun _ => SqliteFault.noFault)).2 =
      (save_to_sqlite
          { timestamp_utc := "2025-01-01T00:00:00+00:00", city_name := PyVal.str "Hanoi",
            temperature_celsius := 28, humidity_percent := 70, pressure_hpa := 1008,
            wind_speed_mps := 3, weather_description := PyVal.str "clear sky" }
          [] (fun _ => SqliteFault.noFault)).2 ∧
    countTimestamp
        ((save_to_sqlite
            { timestamp_utc := "2025-01-01T00:00:00+00:00", city_name := PyVal.str "Hanoi",
              temperature_celsius := 28, humidity_percent := 70, pressure_hpa := 1008,
              wind_speed_mps := 3, weather_description := PyVal.str "clear sky" }
            [] (fun _ => SqliteFault.noFault)).2)
        "2025-01-01T00:00:00+00:00" = 1 :=
  persist_idempotent
    { timestamp_utc := "2025-01-01T00:00:00+00:00", city_name := PyVal.str "Hanoi",
      temperature_celsius := 28, humidity_percent := 70, pressure_hpa := 1008,
      wind_speed_mps := 3, weather_description := PyVal.str "clear sky" }
    [] rfl rfl

/-- Inversion for a successful validation: the stored city name is the
reported one if truthy, else the expected city. -/
lemma process_some_city {now : String} {e : ExtractedFields} {city : String}
    {row : WeatherRow} (h : process_weather_data now (some e) city = some row) :
    row.city_name = (if truthy e.city_name then e.city_name else PyVal.str city) := by
  simp only [process_weather_data] at h
  split at h
  · cases h
  · split at h
    · injection h with h'
      rw [← h']
    · cases h

/-- Claim C8: the persisted `city_name` is the reported city name when one
is present (truthy), and falls back to `expected_city` when the source
omitted it.  Whenever the reported name has the shape the data model gives
it — absent or a string — and `expected_city` is non-empty, the persisted
`city_name` is a non-empty string. -/
theorem city_name_fallback :
    ∀ (now : String) (e : ExtractedFields) (city : String) (row : WeatherRow),
      process_weather_data now (some e) city = some row →
      (truthy e.city_name = true → row.city_name = e.city_name) ∧
      (truthy e.city_name = false → row.city_name = PyVal.str city) ∧
      ((e.city_name = PyVal.none ∨ ∃ s, e.city_name = PyVal.str s) → city ≠ "" →
        ∃ s, row.city_name = PyVal.str s ∧ s ≠ "") := by
  intro now e city row h
  have hc := process_some_city h
  refine ⟨?_, ?_, ?_⟩
  · intro htr
    rw [hc, if_pos htr]
  · intro htr
    rw [hc, if_neg (by simp [htr])]
  · intro hshape hcity
    cases htr : truthy e.city_name with
    | false =>
      exact ⟨city, by rw [hc, if_neg (by simp [htr])], hcity⟩
    | true =>
      rcases hshape with hn | ⟨s, hs⟩
      · rw [hn] at htr
        cases htr
      · refine ⟨s, by rw [hc, if_pos htr, hs], ?_⟩
        rw [hs] at htr
        simpa [truthy] using htr

/-- Witness for C8: a payload with no reported city name, validated against
expected city "Hanoi", is persisted with the non-empty fallback name. -/
theorem city_name_fallback_witness :
    ∃ s, PyVal.str "Hanoi" = PyVal.str s ∧ s ≠ "" := by
  have h := city_name_fallback "2025-01-01T00:00:00+00:00"
    { temperature := PyVal.float 28, humidity := PyVal.int 70,
      pressure := PyVal.float 1008, wind_speed := PyVal.float 3,
      description := PyVal.none, city_name := PyVal.none }
    "Hanoi"
    { timestamp_utc := "2025-01-01T00:00:00+00:00", city_name := PyVal.str "Hanoi",
      temperature_celsius := 28, humidity_percent := 70, pressure_hpa := 1008,
      wind_speed_mps := 3, weather_description := PyVal.none }
    rfl
  exact h.2.2 (Or.inl rfl) (by decide)

/-- Claim C9: a storage-layer failure other than a duplicate key is not
retried — `save_to_sqlite` performs a single insert attempt, consulting
only the first element of the fault environment — and propagates to the
orchestrator as a fatal error: the cycle ends with a storage failure
outcome and the store gains no row. -/
theorem storage_fatal_propagates :
    ∀ (row : WeatherRow) (store : Store) (env : Nat → SqliteFault) (msg : String),
      env 0 = SqliteFault.ioFault msg →
      save_to_sqlite row store env = (SaveResult.fatalCrash msg, store) ∧
      (∀ env', env' 0 = env 0 → save_to_sqlite row store env' = save_to_sqlite row store env) ∧
      orchestrator_persist row store env = (CycleStorageOutcome.storageFailure msg, store) := by
  intro row store env msg henv
  refine ⟨?_, ?_, ?_⟩
  · simp [save_to_sqlite, henv]
  · intro env' h
    simp [save_to_sqlite, h]
  · simp [orchestrator_persist, save_to_sqlite, henv]

/-- Witness for C9: a disk-full fault on the insert of a concrete record
into the empty store surfaces as a fatal crash and stores nothing. -/
theorem storage_fatal_propagates_witness :
    save_to_sqlite
        { timestamp_utc := "2025-01-01T00:00:00+00:00", city_name := PyVal.str "Hanoi",
          temperature_celsius := 28, humidity_percent := 70, pressure_hpa := 1008,
          wind_speed_mps := 3, weather_description := PyVal.none }
        [] (fun _ => SqliteFault.ioFault "disk full") =
      (SaveResult.fatalCrash "disk full", []) ∧
    orchestrator_persist
        { timestamp_utc := "2025-01-01T00:00:00+00:00", city_name := PyVal.str "Hanoi",
          temperature_celsius := 28, humidity_percent := 70, pressure_hpa := 1008,
          wind_speed_mps := 3, weather_description := PyVal.none }
        [] (fun _ => SqliteFault.ioFault "disk full") =
      (CycleStorageOutcome.storageFailure "disk full", []) := by
  have h := storage_fatal_propagates
    { timestamp_utc := "2025-01-01T00:00:00+00:00", city_name := PyVal.str "Hanoi",
      temperature_celsius := 28, humidity_percent := 70, pressure_hpa := 1008,
      wind_speed_mps := 3, weather_description := PyVal.none }
    [] (fun _ => SqliteFault.ioFault "disk full") "disk full" rfl
  exact ⟨h.1, h.2.2⟩

/-- Claim C10 (implicit): humidity is coerced with Python `int` while the
other three fields use `float`; a fractional humidity is therefore stored
truncated toward zero, and a decimal string humidity makes validation
return `None` even though the same string is accepted for the three float
fields. -/
theorem humidity_integer_coercion :
    (∀ (now : String) (e : ExtractedFields) (city : String) (q t p w : ℚ),
      pyFloat e.temperature = some t → pyFloat e.pressure = some p →
      pyFloat e.wind_speed = some w → e.humidity = PyVal.float q →
      ∃ row, process_weather_data now (some e) city = some row ∧
        row.humidity_percent = ratTrunc q) ∧
    (∀ (now : String) (e : ExtractedFields) (city : String) (s : String) (qs : ℚ),
      e.humidity = PyVal.str s → pyIntOfString s = Option.none →
      pyFloatOfString s = some qs →
      process_weather_data now (some e) city = Option.none) ∧
    (∀ (now : String) (e : ExtractedFields) (city : String) (s : String) (qs : ℚ) (hv : Int),
      pyFloatOfString s = some qs → e.temperature = PyVal.str s →
      e.pressure = PyVal.str s → e.wind_speed = PyVal.str s →
      pyInt e.humidity = some hv →
      ∃ row, process_weather_data now (some e) city = some row ∧
        row.temperature_celsius = qs ∧ row.pressure_hpa = qs ∧
        row.wind_speed_mps = qs) := by
  refine ⟨?_, ?_, ?_⟩
  · intro now e city q t p w ht hp hw hq
    have hh : pyInt e.humidity = some (ratTrunc q) := by rw [hq]; rfl
    exact ⟨_, process_success now e city t p w (ratTrunc q) ht hh hp hw, rfl⟩
  · intro now e city s qs hs hint _
    rw [process_eq_none_iff]
    refine Or.inr (Or.inl ?_)
    rw [hs]
    simpa [pyInt] using hint
  · intro now e city s qs hv hfs ht hp hw hh
    have ht' : pyFloat e.temperature = some qs := by rw [ht]; simpa [pyFloat] using hfs
    have hp' : pyFloat e.pressure = some qs := by rw [hp]; simpa [pyFloat] using hfs
    have hw' : pyFloat e.wind_speed = some qs := by rw [hw]; simpa [pyFloat] using hfs
    exact ⟨_, process_success now e city qs qs qs hv ht' hh hp' hw', rfl, rfl, rfl⟩

lemma pyFloatOfString_seventy_half : pyFloatOfString "70.5" = some ((141 : ℚ) / 2) := by
  have h : pyFloatOfString "70.5" =
      some ((digitsVal ['7', '0'] : ℚ) + (digitsVal ['5'] : ℚ) / (10 ^ 1)) := rfl
  have h7 : digitsVal ['7', '0'] = 70 := by decide
  have h5 : digitsVal ['5'] = 5 := by decide
  rw [h, h7, h5]
  norm_num

/-- Witness for C10: humidity 70.9 is stored as 70; humidity "70.5" makes
validation fail; "70.5" in the three float fields is accepted and stored as
70.5. -/
theorem humidity_integer_coercion_witness :
    (∃ row, process_weather_data "2025-01-01T00:00:00+00:00"
        (some { temperature := PyVal.float 28, humidity := PyVal.float ((709 : ℚ) / 10),
                pressure := PyVal.float 1008, wind_speed := PyVal.float 3,
                description := PyVal.none, city_name := PyVal.str "Hanoi" })
        "Hanoi" = some row ∧ row.humidity_percent = 70) ∧
    process_weather_data "2025-01-01T00:00:00+00:00"
        (some { temperature := PyVal.float 28, humidity := PyVal.str "70.5",
                pressure := PyVal.float 1008, wind_speed := PyVal.float 3,
                description := PyVal.none, city_name := PyVal.str "Hanoi" })
        "Hanoi" = Option.none ∧
    (∃ row, process_weather_data "2025-01-01T00:00:00+00:00"
        (some { temperature := PyVal.str "70.5", humidity := PyVal.int 70,
                pressure := PyVal.str "70.5", wind_speed := PyVal.str "70.5",
                description := PyVal.none, city_name := PyVal.str "Hanoi" })
        "Hanoi" = some row ∧ row.temperature_celsius = (141 : ℚ) / 2 ∧
        row.pressure_hpa = (141 : ℚ) / 2 ∧ row.wind_speed_mps = (141 : ℚ) / 2) := by
  refine ⟨?_, ?_, ?_⟩
  · obtain ⟨row, hrow, hh⟩ := humidity_integer_coercion.1 "2025-01-01T00:00:00+00:00"
      { temperature := PyVal.float 28, humidity := PyVal.float ((709 : ℚ) / 10),
        pressure := PyVal.float 1008, wind_speed := PyVal.float 3,
        description := PyVal.none, city_name := PyVal.str "Hanoi" }
      "Hanoi" ((709 : ℚ) / 10) 28 1008 3 rfl rfl rfl rfl
    refine ⟨row, hrow, ?_⟩
    rw [hh]
    norm_num [ratTrunc]
  · exact humidity_integer_coercion.2.1 "2025-01-01T00:00:00+00:00"
      { temperature := PyVal.float 28, humidity := PyVal.str "70.5",
        pressure := PyVal.float 1008, wind_speed := PyVal.float 3,
        description := PyVal.none, city_name := PyVal.str "Hanoi" }
      "Hanoi" "70.5" ((141 : ℚ) / 2) rfl (by decide) pyFloatOfString_seventy_half
  · exact humidity_integer_coercion.2.2 "2025-01-01T00:00:00+00:00"
      { temperature := PyVal.str "70.5", humidity := PyVal.int 70,
        pressure := PyVal.str "70.5", wind_speed := PyVal.str "70.5",
        description := PyVal.none, city_name := PyVal.str "Hanoi" }
      "Hanoi" "70.5" ((141 : ℚ) / 2) 70 pyFloatOfString_seventy_half rfl rfl rfl rfl
